import Mathlib

/-!
Verification development for the cps_import publishing tool
(`src/canvas_import.py`).  The Python source is shallowly embedded:
each Canvas API helper becomes a Lean function over an explicit
remote-store state (`CanvasState`), with an `Oracle` recording, for one
run, which remote calls answer with a 2xx status and what `url` the
remote returns for a created page.  The Streamlit UI plumbing is not
modelled; the embedded `pushToCanvas` follows lines 163-176 of `main`
and `fullRun` adds the AI-formatting gate of lines 138-154.
-/

namespace CpsImport

/-- `PUBLISHED = True` (line 15 of the source). -/
def PUBLISHED : Bool := true

/-- A module record held by the remote store: id assigned on creation,
name as sent by the client, published flag. -/
structure CModule where
  id : Nat
  name : String
  published : Bool
deriving DecidableEq, Repr

/-- A wiki page held by the remote store. -/
structure CPage where
  title : String
  body : String
  url : String
  published : Bool
deriving DecidableEq, Repr

/-- A module item (link of a page into a module) held by the remote store. -/
structure CModuleItem where
  moduleId : Nat
  title : String
  itemType : String
  pageUrl : String
  published : Bool
deriving DecidableEq, Repr

/-- The remote (Canvas) store: the only state shared between runs.
`nextId` is the id the store will assign to the next created module. -/
structure CanvasState where
  modules : List CModule
  pages : List CPage
  items : List CModuleItem
  nextId : Nat
deriving DecidableEq, Repr

/-- One run's remote behaviour: whether each write call answers 2xx, and
the `url` field the store reports in the create-page response body
(`none` models a response JSON without a `url` key). -/
structure Oracle where
  moduleCreateOk : Bool
  pageCreateOk : Bool
  linkOk : Bool
  assignedUrl : Option String
deriving DecidableEq, Repr

/-- Python's `str.lower` on one character (ASCII case folding, which is
all the titles here exercise). -/
def lowerChar (c : Char) : Char := c.toLower

/-- The locally computed slug of line 175:
`page_title.lower().replace(" ", "-")`.  The pattern is the single
character `" "`, so the replace is exactly a per-character map. -/
def slug (title : String) : String :=
  ⟨title.data.map (fun c => if lowerChar c = ' ' then '-' else lowerChar c)⟩

/-- Embeds `create_module` (lines 95-100): POST the module payload; on a
2xx status the store appends a fresh module and the function returns its
id, otherwise it returns `None`.  There is no lookup before the POST. -/
def create_module (o : Oracle) (moduleName : String) (s : CanvasState) :
    CanvasState × Option Nat :=
  if o.moduleCreateOk then
    ({ s with
        modules := s.modules ++ [⟨s.nextId, moduleName, PUBLISHED⟩],
        nextId := s.nextId + 1 },
     some s.nextId)
  else (s, none)

/-- The create-page response body as used by `main`: only its `url` key
is read (line 175); `none` models an absent key. -/
structure PageResponse where
  url : Option String
deriving DecidableEq, Repr

/-- Embeds `create_wiki_page` (lines 102-107): POST the page payload; on
a 2xx status the store appends a fresh page and the response JSON is
returned, otherwise `None`.  There is no lookup before the POST and no
in-place update path. -/
def create_wiki_page (o : Oracle) (title body : String) (s : CanvasState) :
    CanvasState × Option PageResponse :=
  if o.pageCreateOk then
    ({ s with
        pages := s.pages ++ [⟨title, body, (o.assignedUrl).getD (slug title), PUBLISHED⟩] },
     some ⟨o.assignedUrl⟩)
  else (s, none)

/-- Embeds `add_page_to_module` (lines 109-113): POST the module-item
payload and return the response JSON.  The status code is never
inspected: on a non-2xx answer the store is unchanged but the caller
sees no error. -/
def add_page_to_module (o : Oracle) (moduleId : Nat) (title pageUrl : String)
    (s : CanvasState) : CanvasState :=
  if o.linkOk then
    { s with items := s.items ++ [⟨moduleId, title, "Page", pageUrl, PUBLISHED⟩] }
  else s

/-- `page_data.get("url") or page_title.lower().replace(" ", "-")`
(line 175): the remote url is used when present and non-empty (Python
truthiness), otherwise the locally computed slug. -/
def pageUrlOf (respUrl : Option String) (title : String) : String :=
  match respUrl with
  | some u => if u = "" then slug title else u
  | none => slug title

/-- Outcome of the push section of `main`, mirroring the `st.error` and
early-return structure of lines 165-176. -/
inductive PushOutcome where
  | moduleFailed
  | pageFailed
  | completed
deriving DecidableEq, Repr

/-- Embeds the push section of `main` (lines 163-176):
create module, stop on a falsy id; create page, stop on a falsy
response; link the page into the module, ignoring the link response. -/
def pushToCanvas (o : Oracle) (moduleTitle pageTitle html : String)
    (s : CanvasState) : CanvasState × PushOutcome :=
  let r1 := create_module o moduleTitle s
  match r1.2 with
  | none => (r1.1, PushOutcome.moduleFailed)
  | some mid =>
    if mid = 0 then (r1.1, PushOutcome.moduleFailed)
    else
      let r2 := create_wiki_page o pageTitle html r1.1
      match r2.2 with
      | none => (r2.1, PushOutcome.pageFailed)
      | some resp =>
        (add_page_to_module o mid pageTitle (pageUrlOf resp.url pageTitle) r2.1,
         PushOutcome.completed)

/-- The formatting collaborator's response as used by
`get_ai_generated_html` (lines 84-90): status code and the message
content of the 200-response body. -/
structure AiResponse where
  status : Nat
  content : String
deriving DecidableEq, Repr

/-- The backtick character, stripped by line 87. -/
def backtickChar : Char := Char.ofNat 96

/-- Python `content.strip("` `")`: drop backticks from both ends. -/
def stripBackticks (s : String) : String :=
  ⟨((s.data.dropWhile (fun c => c = backtickChar)).reverse.dropWhile
      (fun c => c = backtickChar)).reverse⟩

/-- Embeds `get_ai_generated_html` (lines 84-90): on status 200 return
the stripped message content, otherwise report the error and return
`None`. -/
def get_ai_generated_html (r : AiResponse) : Option String :=
  if r.status = 200 then some (stripBackticks r.content) else none

/-- Outcome of one generate-then-push interaction of `main`. -/
inductive RunOutcome where
  | formattingError
  | emptyHtml
  | pushed (p : PushOutcome)
deriving DecidableEq, Repr

/-- One full interaction of `main` in a fresh session: the formatting
call of Step 2 (lines 143-150) gates the push of Step 3 (lines
153-176); a falsy AI result is reported and the push section never
runs. -/
def fullRun (r : AiResponse) (o : Oracle) (moduleTitle pageTitle : String)
    (s : CanvasState) : CanvasState × RunOutcome :=
  match get_ai_generated_html r with
  | none => (s, RunOutcome.formattingError)
  | some h =>
    if h = "" then (s, RunOutcome.emptyHtml)
    else
      let r' := pushToCanvas o moduleTitle pageTitle h s
      (r'.1, RunOutcome.pushed r'.2)

/-- An uploaded file as seen by `extract_text_from_uploaded_files`
(lines 32-58): its name, and the outcome of the fallible per-file read
that the matching branch performs (DOCX paragraph join, PDF page join,
or utf-8 decode) — `Except.error e` models the branch's reader raising
an exception rendered as `e`. -/
structure UploadedFile where
  name : String
  readResult : Except String String
deriving Repr

/-- `file.name.split('.')[-1].lower()` (line 36): the lowercased text
after the last dot — the whole name when no dot occurs, the empty
string when the name ends in a dot, exactly as Python's split gives. -/
def fileExt (name : String) : String :=
  ⟨((name.data.reverse.takeWhile (fun c => c ≠ '.')).reverse).map lowerChar⟩

/-- The text contributed by one file: the branch for its extension,
with the branch's `except` clause turning a raised exception into an
inline error string (lines 37-57). -/
def extractOne (f : UploadedFile) : String :=
  if fileExt f.name = "docx" then
    match f.readResult with
    | Except.ok t => t
    | Except.error e => "[Error reading DOCX: " ++ e ++ "]"
  else if fileExt f.name = "pdf" then
    match f.readResult with
    | Except.ok t => t
    | Except.error e => "[Error reading PDF: " ++ e ++ "]"
  else
    match f.readResult with
    | Except.ok t => t
    | Except.error e => "[Error reading file: " ++ e ++ "]"

/-- Embeds `extract_text_from_uploaded_files` (lines 32-58): one text
per file, joined with newlines. -/
def extract_text_from_uploaded_files (files : List UploadedFile) : String :=
  String.intercalate "\n" (files.map extractOne)

/-! ## The Markup Transformer

Modelled from the spec: the Markup Transformer of §4.1 is not part of
`src/canvas_import.py`; the spec describes it as a pure function
applying a fixed ordered set of token→fragment rules by literal
substring replacement, with the vocabulary of bracketed structural
tokens of §8 Example 1 (`"[begin paragraph]" → "<p>"`, and the matching
end token).  We embed it as a single left-to-right scan that, at each
position, replaces the first matching token and continues after the
replaced stretch, copying the character otherwise.  The scan is written
with a fuel argument (initialised to the input length, always
sufficient) so that it is structural and computable by the kernel. -/

/-- Modelled from the spec: the begin-paragraph token of Example 1. -/
def tokBeginPar : List Char := "[begin paragraph]".data

/-- Modelled from the spec: the fragment replacing `tokBeginPar`. -/
def repBeginPar : List Char := "<p>".data

/-- Modelled from the spec: the end-paragraph token of Example 1. -/
def tokEndPar : List Char := "[end paragraph]".data

/-- Modelled from the spec: the fragment replacing `tokEndPar`. -/
def repEndPar : List Char := "</p>".data

/-- The begin-paragraph token without its leading bracket. -/
def tailBeginPar : List Char := "begin paragraph]".data

/-- The end-paragraph token without its leading bracket. -/
def tailEndPar : List Char := "end paragraph]".data

/-- Modelled from the spec: one step of the replacement scan, on fuel.
Fuel `0` with a non-empty list never arises from `transformL`. -/
def transformF : Nat → List Char → List Char
  | _, [] => []
  | 0, l => l
  | n + 1, c :: cs =>
    if tokBeginPar <+: (c :: cs) then
      repBeginPar ++ transformF n (cs.drop (tokBeginPar.length - 1))
    else if tokEndPar <+: (c :: cs) then
      repEndPar ++ transformF n (cs.drop (tokEndPar.length - 1))
    else
      c :: transformF n cs

/-- Modelled from the spec: the replacement scan over a character list,
with just enough fuel. -/
def transformL (l : List Char) : List Char :=
  transformF l.length l

/-- Modelled from the spec: `transform(text) -> markup-string` (§4.1). -/
def transform (s : String) : String :=
  ⟨transformL s.data⟩

/-- A text in which neither placeholder token occurs as a substring. -/
def TokenFreeL (l : List Char) : Prop :=
  ¬ tokBeginPar <:+: l ∧ ¬ tokEndPar <:+: l

/-! ## Lemmas about the transformer -/

/-- The scan maps the empty text to itself at any fuel. -/
theorem transformF_nil (n : Nat) : transformF n [] = [] := by
  cases n <;> rfl

/-- Unfolding of the scan on a non-empty text with positive fuel. -/
theorem transformF_step (n : Nat) (c : Char) (cs : List Char) :
    transformF (n + 1) (c :: cs) =
      if tokBeginPar <+: (c :: cs) then
        repBeginPar ++ transformF n (cs.drop (tokBeginPar.length - 1))
      else if tokEndPar <+: (c :: cs) then
        repEndPar ++ transformF n (cs.drop (tokEndPar.length - 1))
      else
        c :: transformF n cs := rfl

/-- A token (which starts with a bracket) is not a prefix of a text
whose first character is not a bracket. -/
theorem tok_not_pref_of_head {tok : List Char} {a : Char} {X : List Char}
    (h0 : ∃ t, tok = '[' :: t) (ha : a ≠ '[') : ¬ tok <+: a :: X := by
  rcases h0 with ⟨t, rfl⟩
  intro h
  exact ha (( List.cons_prefix_cons).1 h).1.symm

/-- A token is not a substring of `a :: X` when `a` is not a bracket and
the token is not a substring of `X`. -/
theorem notInfix_cons_of {tok : List Char} (a : Char) {X : List Char}
    (h0 : ∃ t, tok = '[' :: t) (ha : a ≠ '[') (hX : ¬ tok <:+: X) :
    ¬ tok <:+: a :: X := by
  rw [ List.infix_cons_iff]
  rintro (hp | hi)
  · exact tok_not_pref_of_head h0 ha hp
  · exact hX hi

/-- Protection lemma: a pattern containing neither a bracket nor an
angle (such as a token with its leading bracket removed) that is not a
prefix of the input is not a prefix of the scan's output either. -/
theorem transformF_keeps_not_pref :
    ∀ (n : Nat) (l t : List Char), l.length ≤ n →
      (∀ a ∈ t, a ≠ '[' ∧ a ≠ '<') → ¬ t <+: l → ¬ t <+: transformF n l := by
  intro n
  induction n with
  | zero =>
    intro l t hl ht hp
    have hnil : l = [] := List.eq_nil_of_length_eq_zero (Nat.le_zero.mp hl)
    subst hnil
    simpa [transformF_nil] using hp
  | succ n ih =>
    intro l t hl ht hp
    cases l with
    | nil => simpa [transformF_nil] using hp
    | cons c cs =>
      have hlen : cs.length ≤ n := by
        simp only [List.length_cons] at hl
        omega
      rw [transformF_step]
      by_cases h1 : tokBeginPar <+: (c :: cs)
      · rw [if_pos h1]
        intro hcon
        cases t with
        | nil => exact hp ( List.nil_prefix)
        | cons a t' =>
          have heq : repBeginPar ++ transformF n (cs.drop (tokBeginPar.length - 1)) =
              '<' :: ('p' :: ('>' :: transformF n (cs.drop (tokBeginPar.length - 1)))) := rfl
          rw [heq] at hcon
          exact (ht a (List.mem_cons_self a t')).2 (( List.cons_prefix_cons).1 hcon).1
      · rw [if_neg h1]
        by_cases h2 : tokEndPar <+: (c :: cs)
        · rw [if_pos h2]
          intro hcon
          cases t with
          | nil => exact hp ( List.nil_prefix)
          | cons a t' =>
            have heq : repEndPar ++ transformF n (cs.drop (tokEndPar.length - 1)) =
                '<' :: ('/' :: ('p' :: ('>' :: transformF n (cs.drop (tokEndPar.length - 1))))) := rfl
            rw [heq] at hcon
            exact (ht a (List.mem_cons_self a t')).2 (( List.cons_prefix_cons).1 hcon).1
        · rw [if_neg h2]
          intro hcon
          cases t with
          | nil => exact hp ( List.nil_prefix)
          | cons a t' =>
            have hco := ( List.cons_prefix_cons).1 hcon
            have hnp : ¬ t' <+: cs := fun hq => hp (( List.cons_prefix_cons).2 ⟨hco.1, hq⟩)
            exact ih cs t' hlen (fun a ha => ht a (List.mem_cons_of_mem _ ha)) hnp hco.2

/-- The scan's output never contains a placeholder token. -/
theorem transformF_tokenFree :
    ∀ (n : Nat) (l : List Char), l.length ≤ n → TokenFreeL (transformF n l) := by
  intro n
  induction n with
  | zero =>
    intro l hl
    have hnil : l = [] := List.eq_nil_of_length_eq_zero (Nat.le_zero.mp hl)
    subst hnil
    rw [transformF_nil]
    exact ⟨by decide, by decide⟩
  | succ n ih =>
    intro l hl
    cases l with
    | nil =>
      rw [transformF_nil]
      exact ⟨by decide, by decide⟩
    | cons c cs =>
      have hlen : cs.length ≤ n := by
        simp only [List.length_cons] at hl
        omega
      rw [transformF_step]
      by_cases h1 : tokBeginPar <+: (c :: cs)
      · rw [if_pos h1]
        have hd : (cs.drop (tokBeginPar.length - 1)).length ≤ n := by
          simp only [List.length_drop]
          omega
        obtain ⟨hb, he⟩ := ih _ hd
        have heq : repBeginPar ++ transformF n (cs.drop (tokBeginPar.length - 1)) =
            '<' :: ('p' :: ('>' :: transformF n (cs.drop (tokBeginPar.length - 1)))) := rfl
        rw [heq]
        constructor
        · exact notInfix_cons_of _ ⟨tailBeginPar, rfl⟩ (by decide)
            (notInfix_cons_of _ ⟨tailBeginPar, rfl⟩ (by decide)
              (notInfix_cons_of _ ⟨tailBeginPar, rfl⟩ (by decide) hb))
        · exact notInfix_cons_of _ ⟨tailEndPar, rfl⟩ (by decide)
            (notInfix_cons_of _ ⟨tailEndPar, rfl⟩ (by decide)
              (notInfix_cons_of _ ⟨tailEndPar, rfl⟩ (by decide) he))
      · rw [if_neg h1]
        by_cases h2 : tokEndPar <+: (c :: cs)
        · rw [if_pos h2]
          have hd : (cs.drop (tokEndPar.length - 1)).length ≤ n := by
            simp only [List.length_drop]
            omega
          obtain ⟨hb, he⟩ := ih _ hd
          have heq : repEndPar ++ transformF n (cs.drop (tokEndPar.length - 1)) =
              '<' :: ('/' :: ('p' :: ('>' :: transformF n (cs.drop (tokEndPar.length - 1))))) := rfl
          rw [heq]
          constructor
          · exact notInfix_cons_of _ ⟨tailBeginPar, rfl⟩ (by decide)
              (notInfix_cons_of _ ⟨tailBeginPar, rfl⟩ (by decide)
                (notInfix_cons_of _ ⟨tailBeginPar, rfl⟩ (by decide)
                  (notInfix_cons_of _ ⟨tailBeginPar, rfl⟩ (by decide) hb)))
          · exact notInfix_cons_of _ ⟨tailEndPar, rfl⟩ (by decide)
              (notInfix_cons_of _ ⟨tailEndPar, rfl⟩ (by decide)
                (notInfix_cons_of _ ⟨tailEndPar, rfl⟩ (by decide)
                  (notInfix_cons_of _ ⟨tailEndPar, rfl⟩ (by decide) he)))
        · rw [if_neg h2]
          obtain ⟨hb, he⟩ := ih cs hlen
          by_cases hc : c = '['
          · subst hc
            constructor
            · rw [ List.infix_cons_iff]
              rintro (hp | hi)
              · have hp' : tailBeginPar <+: transformF n cs :=
                  (( List.cons_prefix_cons).1 hp).2
                have hnps : ¬ tailBeginPar <+: cs := fun hq =>
                  h1 (( List.cons_prefix_cons).2 ⟨rfl, hq⟩)
                exact transformF_keeps_not_pref n cs tailBeginPar hlen (by decide) hnps hp'
              · exact hb hi
            · rw [ List.infix_cons_iff]
              rintro (hp | hi)
              · have hp' : tailEndPar <+: transformF n cs :=
                  (( List.cons_prefix_cons).1 hp).2
                have hnps : ¬ tailEndPar <+: cs := fun hq =>
                  h2 (( List.cons_prefix_cons).2 ⟨rfl, hq⟩)
                exact transformF_keeps_not_pref n cs tailEndPar hlen (by decide) hnps hp'
              · exact he hi
          · exact ⟨notInfix_cons_of _ ⟨tailBeginPar, rfl⟩ hc hb,
                   notInfix_cons_of _ ⟨tailEndPar, rfl⟩ hc he⟩

/-- The scan is the identity on token-free texts. -/
theorem transformF_fixed :
    ∀ (n : Nat) (l : List Char), l.length ≤ n → TokenFreeL l → transformF n l = l := by
  intro n
  induction n with
  | zero =>
    intro l hl _
    have hnil : l = [] := List.eq_nil_of_length_eq_zero (Nat.le_zero.mp hl)
    subst hnil
    exact transformF_nil 0
  | succ n ih =>
    intro l hl hfree
    cases l with
    | nil => exact transformF_nil (n + 1)
    | cons c cs =>
      have h1 : ¬ tokBeginPar <+: (c :: cs) := fun h => hfree.1 h.isInfix
      have h2 : ¬ tokEndPar <+: (c :: cs) := fun h => hfree.2 h.isInfix
      rw [transformF_step, if_neg h1, if_neg h2]
      have hcs : TokenFreeL cs :=
        ⟨fun h => hfree.1 (List.infix_cons h), fun h => hfree.2 (List.infix_cons h)⟩
      have hlen : cs.length ≤ n := by
        simp only [List.length_cons] at hl
        omega
      rw [ih cs hlen hcs]

/-- The transformer's output is token-free. -/
theorem transformL_tokenFree (l : List Char) : TokenFreeL (transformL l) :=
  transformF_tokenFree l.length l (Nat.le_refl _)

/-- The transformer is idempotent on character lists. -/
theorem transformL_idem (l : List Char) : transformL (transformL l) = transformL l :=
  transformF_fixed (transformL l).length (transformL l) (Nat.le_refl _)
    (transformL_tokenFree l)

/-! ## Claim theorems -/

/-- C4: the Markup Transformer is idempotent — `transform (transform x)
= transform x` for every text `x` — and Example 1 holds: the bracketed
paragraph tokens around `Hello` become `<p>` and `</p>`. -/
theorem c4_transform_idempotent :
    (∀ x : String, transform (transform x) = transform x) ∧
    transform "[begin paragraph]Hello[end paragraph]" = "<p>Hello</p>" := by
  constructor
  · intro x
    show (⟨transformL (transformL x.data)⟩ : String) = ⟨transformL x.data⟩
    rw [transformL_idem]
  · rfl

/-- C5: the push section is a linear pipeline that halts at the first
failing step — a module failure prevents the page and link writes, a
page failure prevents the link write — and no successful earlier write
is rolled back: the store's module, page and item lists only grow by
appends (the original lists stay as prefixes). -/
theorem c5_linear_halt_no_rollback (o : Oracle) (mt pt hb : String) (s : CanvasState) :
    ((pushToCanvas o mt pt hb s).2 = PushOutcome.moduleFailed →
      (pushToCanvas o mt pt hb s).1.pages = s.pages ∧
      (pushToCanvas o mt pt hb s).1.items = s.items) ∧
    ((pushToCanvas o mt pt hb s).2 = PushOutcome.pageFailed →
      (pushToCanvas o mt pt hb s).1.items = s.items) ∧
    s.modules <+: (pushToCanvas o mt pt hb s).1.modules ∧
    s.pages <+: (pushToCanvas o mt pt hb s).1.pages ∧
    s.items <+: (pushToCanvas o mt pt hb s).1.items := by
  rcases o with ⟨mok, pok, lok, au⟩
  by_cases hz : s.nextId = 0 <;>
    cases mok <;> cases pok <;> cases lok <;>
      simp [pushToCanvas, create_module, create_wiki_page, add_page_to_module, hz,
        List.prefix_append]

/-- Witness for C5: with a module-create failure, the page and item
lists of an initial store stay empty. -/
theorem c5_witness :
    (pushToCanvas ⟨false, true, true, none⟩ "Week 1" "Intro Page" "b"
        ⟨[], [], [], 1⟩).1.pages = [] ∧
    (pushToCanvas ⟨false, true, true, none⟩ "Week 1" "Intro Page" "b"
        ⟨[], [], [], 1⟩).1.items = [] :=
  (c5_linear_halt_no_rollback ⟨false, true, true, none⟩ "Week 1" "Intro Page" "b"
    ⟨[], [], [], 1⟩).1 (by decide)

/-- C1 counterexample: two identical fully successful runs from an
empty store leave two modules and two pages, not exactly one of each:
there is no lookup-before-create anywhere in the push section. -/
theorem c1_counterexample :
    ((pushToCanvas ⟨true, true, true, none⟩ "Week 1" "Intro Page" "<p>Hello</p>"
        (pushToCanvas ⟨true, true, true, none⟩ "Week 1" "Intro Page" "<p>Hello</p>"
          ⟨[], [], [], 1⟩).1).1.modules.length = 2 ∧
      (pushToCanvas ⟨true, true, true, none⟩ "Week 1" "Intro Page" "<p>Hello</p>"
        (pushToCanvas ⟨true, true, true, none⟩ "Week 1" "Intro Page" "<p>Hello</p>"
          ⟨[], [], [], 1⟩).1).1.pages.length = 2) ∧
    ¬((pushToCanvas ⟨true, true, true, none⟩ "Week 1" "Intro Page" "<p>Hello</p>"
        (pushToCanvas ⟨true, true, true, none⟩ "Week 1" "Intro Page" "<p>Hello</p>"
          ⟨[], [], [], 1⟩).1).1.modules.length = 1 ∧
      (pushToCanvas ⟨true, true, true, none⟩ "Week 1" "Intro Page" "<p>Hello</p>"
        (pushToCanvas ⟨true, true, true, none⟩ "Week 1" "Intro Page" "<p>Hello</p>"
          ⟨[], [], [], 1⟩).1).1.pages.length = 1) := by
  decide

/-- C1 amended: every fully successful run appends exactly one fresh
module and one fresh page to the store, whatever it already contains;
repeated identical runs therefore accumulate one module and one page
per run instead of converging to a single one. -/
theorem c1_amended (o : Oracle) (mt pt hb : String) (s : CanvasState)
    (hm : o.moduleCreateOk = true) (hp : o.pageCreateOk = true) (hz : s.nextId ≠ 0) :
    (pushToCanvas o mt pt hb s).1.modules.length = s.modules.length + 1 ∧
    (pushToCanvas o mt pt hb s).1.pages.length = s.pages.length + 1 := by
  rcases o with ⟨mok, pok, lok, au⟩
  subst hm
  subst hp
  cases lok <;>
    simp [pushToCanvas, create_module, create_wiki_page, add_page_to_module, hz]

/-- Witness for C1's amended claim at a concrete successful run. -/
theorem c1_witness :
    (pushToCanvas ⟨true, true, true, none⟩ "Week 1" "Intro Page" "b"
        ⟨[], [], [], 1⟩).1.modules.length = ([] : List CModule).length + 1 ∧
    (pushToCanvas ⟨true, true, true, none⟩ "Week 1" "Intro Page" "b"
        ⟨[], [], [], 1⟩).1.pages.length = ([] : List CPage).length + 1 :=
  c1_amended ⟨true, true, true, none⟩ "Week 1" "Intro Page" "b" ⟨[], [], [], 1⟩
    rfl rfl (by decide)

/-- C2 counterexample: with a module named "Week 1" already in the
store, a successful run still creates a second module of the same name
— the module step performs no lookup at all before creating. -/
theorem c2_counterexample :
    ((pushToCanvas ⟨true, true, true, none⟩ "Week 1" "Intro Page" "b"
        ⟨[⟨7, "Week 1", true⟩], [], [], 8⟩).1.modules.map CModule.name) =
      ["Week 1", "Week 1"] := by
  decide

/-- C2 amended: the module step performs no lookup: it unconditionally
issues the create write; when the create answers non-2xx nothing is
written and the pipeline stops with the module failure, and when it
answers 2xx a fresh module with the given name is appended even if a
module of that name already exists. -/
theorem c2_amended (o : Oracle) (mt pt hb : String) (s : CanvasState) :
    (o.moduleCreateOk = false →
      (pushToCanvas o mt pt hb s).2 = PushOutcome.moduleFailed ∧
      (pushToCanvas o mt pt hb s).1 = s) ∧
    (o.moduleCreateOk = true →
      (pushToCanvas o mt pt hb s).1.modules = s.modules ++ [⟨s.nextId, mt, true⟩]) := by
  rcases o with ⟨mok, pok, lok, au⟩
  by_cases hz : s.nextId = 0 <;>
    cases mok <;> cases pok <;> cases lok <;>
      simp [pushToCanvas, create_module, create_wiki_page, add_page_to_module, hz, PUBLISHED]

/-- Witness for C2's amended claim: a failing module create leaves the
store untouched and reports the module failure. -/
theorem c2_witness :
    ((pushToCanvas ⟨false, true, true, none⟩ "Week 1" "Intro Page" "b"
        ⟨[], [], [], 1⟩).2 = PushOutcome.moduleFailed ∧
      (pushToCanvas ⟨false, true, true, none⟩ "Week 1" "Intro Page" "b"
        ⟨[], [], [], 1⟩).1 = ⟨[], [], [], 1⟩) :=
  (c2_amended ⟨false, true, true, none⟩ "Week 1" "Intro Page" "b" ⟨[], [], [], 1⟩).1 rfl

/-- C3 counterexample: with a page already stored at slug "intro-page"
with body "old", a successful run leaves that page untouched and
appends a second page with the new body — nothing is looked up or
updated in place. -/
theorem c3_counterexample :
    ((pushToCanvas ⟨true, true, true, none⟩ "Week 1" "Intro Page" "new"
        ⟨[], [⟨"Intro Page", "old", "intro-page", true⟩], [], 1⟩).1.pages.map CPage.body) =
      ["old", "new"] := by
  decide

/-- C3 amended: the page step performs no lookup and never updates in
place: it unconditionally issues the create write with the given title
and body; a non-2xx answer stops the pipeline with the page failure and
writes nothing, and the url passed to the link step is the
remote-returned url, or the locally computed slug when the response has
no usable url. -/
theorem c3_amended (o : Oracle) (mt pt hb : String) (s : CanvasState)
    (hm : o.moduleCreateOk = true) (hz : s.nextId ≠ 0) :
    (o.pageCreateOk = false →
      (pushToCanvas o mt pt hb s).2 = PushOutcome.pageFailed ∧
      (pushToCanvas o mt pt hb s).1.pages = s.pages ∧
      (pushToCanvas o mt pt hb s).1.items = s.items) ∧
    (o.pageCreateOk = true →
      (pushToCanvas o mt pt hb s).1.pages =
        s.pages ++ [⟨pt, hb, (o.assignedUrl).getD (slug pt), true⟩]) := by
  rcases o with ⟨mok, pok, lok, au⟩
  subst hm
  cases pok <;> cases lok <;>
    simp [pushToCanvas, create_module, create_wiki_page, add_page_to_module, hz, PUBLISHED]

/-- Witness for C3's amended claim: a failing page create stops the run
with the page failure, leaving pages and items untouched. -/
theorem c3_witness :
    ((pushToCanvas ⟨true, false, true, none⟩ "Week 1" "Intro Page" "b"
        ⟨[], [], [], 1⟩).2 = PushOutcome.pageFailed ∧
      (pushToCanvas ⟨true, false, true, none⟩ "Week 1" "Intro Page" "b"
        ⟨[], [], [], 1⟩).1.pages = [] ∧
      (pushToCanvas ⟨true, false, true, none⟩ "Week 1" "Intro Page" "b"
        ⟨[], [], [], 1⟩).1.items = []) :=
  (c3_amended ⟨true, false, true, none⟩ "Week 1" "Intro Page" "b" ⟨[], [], [], 1⟩
    rfl (by decide)).1 rfl

/-- C6 counterexample: when the create-module-item call answers non-2xx
(no item is stored), the run still finishes as `completed` — the link
response status is never inspected and no error is surfaced. -/
theorem c6_counterexample :
    (pushToCanvas ⟨true, true, false, none⟩ "Week 1" "Intro Page" "b"
        ⟨[], [], [], 1⟩).2 = PushOutcome.completed ∧
    (pushToCanvas ⟨true, true, false, none⟩ "Week 1" "Intro Page" "b"
        ⟨[], [], [], 1⟩).1.items = [] := by
  decide

/-- C6 amended: the module and page steps surface their failures, but
the link step does not: once module and page creation succeed the run
completes regardless of the link call's status, and a non-2xx link
answer is silently discarded with no item written and no error
reported. -/
theorem c6_amended (o : Oracle) (mt pt hb : String) (s : CanvasState)
    (hm : o.moduleCreateOk = true) (hp : o.pageCreateOk = true) (hz : s.nextId ≠ 0) :
    (pushToCanvas o mt pt hb s).2 = PushOutcome.completed ∧
    (o.linkOk = false → (pushToCanvas o mt pt hb s).1.items = s.items) := by
  rcases o with ⟨mok, pok, lok, au⟩
  subst hm
  subst hp
  cases lok <;>
    simp [pushToCanvas, create_module, create_wiki_page, add_page_to_module, hz]

/-- Witness for C6's amended claim at a failing link call. -/
theorem c6_witness :
    (pushToCanvas ⟨true, true, false, none⟩ "W" "P" "b" ⟨[], [], [], 1⟩).2 =
      PushOutcome.completed ∧
    ((⟨true, true, false, none⟩ : Oracle).linkOk = false →
      (pushToCanvas ⟨true, true, false, none⟩ "W" "P" "b" ⟨[], [], [], 1⟩).1.items = []) :=
  c6_amended ⟨true, true, false, none⟩ "W" "P" "b" ⟨[], [], [], 1⟩ rfl rfl (by decide)

/-- C7 counterexample: after a run whose page creation fails, a second
fully successful run with the same module name creates a second module
of that name instead of reusing the first. -/
theorem c7_counterexample :
    ((pushToCanvas ⟨true, true, true, none⟩ "Week 1" "Intro Page" "b"
        (pushToCanvas ⟨true, false, true, none⟩ "Week 1" "Intro Page" "b"
          ⟨[], [], [], 1⟩).1).1.modules.map CModule.name) = ["Week 1", "Week 1"] := by
  decide

/-- C7 amended: after a page-creation failure the created module does
remain in the store, but a subsequent run does not resolve and reuse
it: the second run's module step creates a second module with the same
name. -/
theorem c7_amended (o1 o2 : Oracle) (mt pt hb : String) (s : CanvasState)
    (h1m : o1.moduleCreateOk = true) (h1p : o1.pageCreateOk = false)
    (h2m : o2.moduleCreateOk = true) (hz : s.nextId ≠ 0) :
    (pushToCanvas o1 mt pt hb s).2 = PushOutcome.pageFailed ∧
    (pushToCanvas o2 mt pt hb (pushToCanvas o1 mt pt hb s).1).1.modules =
      s.modules ++ [⟨s.nextId, mt, true⟩, ⟨s.nextId + 1, mt, true⟩] := by
  rcases o1 with ⟨m1, p1, l1, a1⟩
  rcases o2 with ⟨m2, p2, l2, a2⟩
  subst h1m
  subst h1p
  subst h2m
  cases l1 <;> cases p2 <;> cases l2 <;>
    simp [pushToCanvas, create_module, create_wiki_page, add_page_to_module, hz, PUBLISHED]

/-- Witness for C7's amended claim at concrete runs. -/
theorem c7_witness :
    (pushToCanvas ⟨true, false, true, none⟩ "Week 1" "P" "b" ⟨[], [], [], 1⟩).2 =
      PushOutcome.pageFailed ∧
    (pushToCanvas ⟨true, true, true, none⟩ "Week 1" "P" "b"
        (pushToCanvas ⟨true, false, true, none⟩ "Week 1" "P" "b" ⟨[], [], [], 1⟩).1).1.modules =
      [] ++ [⟨1, "Week 1", true⟩, ⟨2, "Week 1", true⟩] :=
  c7_amended ⟨true, false, true, none⟩ ⟨true, true, true, none⟩ "Week 1" "P" "b"
    ⟨[], [], [], 1⟩ rfl rfl rfl (by decide)

/-- C8: the slug of "Intro Page" is "intro-page"; the url selection of
line 175 uses the local slug exactly when the response url is missing
or empty; and when the remote returns a non-empty url, the module item
written by the link step carries that remote url, not the local slug. -/
theorem c8_slug_and_remote_url (o : Oracle) (mt pt hb : String) (s : CanvasState)
    (u : String) (hm : o.moduleCreateOk = true) (hp : o.pageCreateOk = true)
    (hl : o.linkOk = true) (hz : s.nextId ≠ 0)
    (hu : o.assignedUrl = some u) (hne : u ≠ "") :
    slug "Intro Page" = "intro-page" ∧
    (∀ t : String, pageUrlOf none t = slug t) ∧
    (∀ t : String, pageUrlOf (some "") t = slug t) ∧
    pageUrlOf (some u) pt = u ∧
    (pushToCanvas o mt pt hb s).1.items = s.items ++ [⟨s.nextId, pt, "Page", u, true⟩] := by
  rcases o with ⟨mok, pok, lok, au⟩
  subst hm
  subst hp
  subst hl
  cases hu
  refine ⟨by decide, fun t => rfl, fun t => rfl, by simp [pageUrlOf, hne], ?_⟩
  simp [pushToCanvas, create_module, create_wiki_page, add_page_to_module, hz,
    pageUrlOf, hne, PUBLISHED]

/-- Witness for C8 at a concrete remote-assigned url. -/
theorem c8_witness :
    slug "Intro Page" = "intro-page" ∧
    (∀ t : String, pageUrlOf none t = slug t) ∧
    (∀ t : String, pageUrlOf (some "") t = slug t) ∧
    pageUrlOf (some "remote-url") "Intro Page" = "remote-url" ∧
    (pushToCanvas ⟨true, true, true, some "remote-url"⟩ "W" "Intro Page" "b"
        ⟨[], [], [], 1⟩).1.items =
      [] ++ [⟨1, "Intro Page", "Page", "remote-url", true⟩] :=
  c8_slug_and_remote_url ⟨true, true, true, some "remote-url"⟩ "W" "Intro Page" "b"
    ⟨[], [], [], 1⟩ "remote-url" rfl rfl rfl (by decide) rfl (by decide)

/-- C9: when the formatting call answers non-2xx, the run reports the
formatting failure and leaves the remote store exactly as it was — no
module create, page create or module-item create happens in that run. -/
theorem c9_formatting_failure_no_writes (r : AiResponse) (o : Oracle)
    (mt pt : String) (s : CanvasState) (h : r.status ≠ 200) :
    fullRun r o mt pt s = (s, RunOutcome.formattingError) := by
  simp [fullRun, get_ai_generated_html, h]

/-- Witness for C9 at a concrete 500 response. -/
theorem c9_witness :
    fullRun ⟨500, "server error"⟩ ⟨true, true, true, none⟩ "W" "P" ⟨[], [], [], 1⟩ =
      (⟨[], [], [], 1⟩, RunOutcome.formattingError) :=
  c9_formatting_failure_no_writes ⟨500, "server error"⟩ ⟨true, true, true, none⟩
    "W" "P" ⟨[], [], [], 1⟩ (by decide)

/-- C10: extraction is total and structural: the output is the newline
join of exactly one text per uploaded file in upload order, a
successful read contributes its text unchanged, and a failed read
contributes an inline bracketed error string instead of propagating. -/
theorem c10_extract_total (files : List UploadedFile) :
    (files.map extractOne).length = files.length ∧
    extract_text_from_uploaded_files files =
      String.intercalate "\n" (files.map extractOne) ∧
    (∀ f ∈ files, ∀ t, f.readResult = Except.ok t → extractOne f = t) ∧
    (∀ f ∈ files, ∀ e, f.readResult = Except.error e →
      extractOne f = "[Error reading DOCX: " ++ e ++ "]" ∨
      extractOne f = "[Error reading PDF: " ++ e ++ "]" ∨
      extractOne f = "[Error reading file: " ++ e ++ "]") := by
  refine ⟨List.length_map _ _, rfl, ?_, ?_⟩
  · intro f _ t ht
    unfold extractOne
    rw [ht]
    split
    · rfl
    · split <;> rfl
  · intro f _ e he
    unfold extractOne
    rw [he]
    split
    · exact Or.inl rfl
    · split
      · exact Or.inr (Or.inl rfl)
      · exact Or.inr (Or.inr rfl)

/-- Witness for C10 at a concrete failing DOCX read. -/
theorem c10_witness :
    extractOne ⟨"a.docx", Except.error "boom"⟩ = "[Error reading DOCX: " ++ "boom" ++ "]" ∨
    extractOne ⟨"a.docx", Except.error "boom"⟩ = "[Error reading PDF: " ++ "boom" ++ "]" ∨
    extractOne ⟨"a.docx", Except.error "boom"⟩ = "[Error reading file: " ++ "boom" ++ "]" :=
  (c10_extract_total [⟨"a.docx", Except.error "boom"⟩]).2.2.2
    ⟨"a.docx", Except.error "boom"⟩ (List.mem_singleton.mpr rfl) "boom" rfl

end CpsImport
